import Mathlib

/-!
Shallow embedding of the HTTP/JSON-RPC wrapper workers of this repository
(memory, sequential-thinking, discord, filesystem), together with theorems
about their dispatch, error-mapping and storage-update behaviour.

Conventions of the embedding:
* JS objects become Lean structures; a JS object used as a string-keyed map
  becomes an association list in insertion order (`List (String × _)`).
* `JSON.stringify` of a structured value is kept symbolic: the tool-result
  text payload is an inductive (`ContentText`) whose constructors record
  which value is serialized, except for plain template strings which are
  embedded literally.
* An unbound JavaScript identifier (the `request` variable read inside the
  nested tool-call handlers) is embedded by `jsRef none ident`, which
  evaluates to the message of the thrown `ReferenceError`, exactly as V8 raises
  `ReferenceError: request is not defined` at that statement.
* `throw` / uncaught exceptions become `Except.error msg` carrying
  `error.message`; the outer `fetch` boundary (`handlePost`) maps them to
  the `-32603` envelope as in the source.
* The external key-value store (`env.MEMORY_KV`, `env.THINKING_KV`) becomes
  an association list from key strings to deserialized values, threaded
  through the handlers; `get` reads the latest binding, `put` overwrites.
* `Date.now()` / `new Date().toISOString()` become explicit `nowMs`/`nowIso`
  parameters of the thinking dispatcher.
-/

/-- A JSON-RPC request id as it can appear in a parsed body: a number, a
string, JSON `null`, or absent from the object. -/
inductive RpcId where
  | null
  | num (n : Int)
  | str (s : String)
  | absent
deriving DecidableEq, Repr

/-- JavaScript truthiness of an id value, as used by `body.id || null`:
`0`, the empty string, `null` and `undefined` are falsy. -/
def RpcId.truthy : RpcId → Bool
  | .null => false
  | .absent => false
  | .num n => n != 0
  | .str s => s != ""

/-- A parsed JSON-RPC request body. `jsonrpc` is `none` when the member is
absent (or not a string); `params` is the server-specific params shape. -/
structure RpcRequest (π : Type) where
  jsonrpc : Option String
  method : String
  params : π
  id : RpcId

/-- The JSON body of an HTTP response from a wrapper: either a success
envelope carrying `result`, or an error envelope `{code, message, data?}`,
each tagged with the response `id`. -/
inductive RpcOutcome (ρ : Type) where
  | result (r : ρ) (id : RpcId)
  | rpcError (code : Int) (message : String) (data : Option String) (id : RpcId)
deriving Repr

/-- An HTTP response: status code plus JSON-RPC body. -/
structure HttpResponse (ρ : Type) where
  status : Nat
  body : RpcOutcome ρ

/-- The shared `POST /` boundary of the wrappers (lines 55-100 of the
memory/thinking workers and the corresponding block of the discord worker):
parse failure is caught by the outer catch (`-32603`, id `null`); a parsed
body whose `jsonrpc` member is missing or not the literal `"2.0"` yields
`400` / `-32600` with id `body.id || null`; otherwise the dispatcher runs,
a success value is returned as `result` with `id: body.id`, and a thrown
dispatch error is caught and mapped to `500` / `-32603` with `id: null`
and the exception message as `data`. -/
def handlePost {π ρ σ : Type} (dispatch : RpcRequest π → σ → Except String (ρ × σ))
    (body : Except String (RpcRequest π)) (st : σ) : HttpResponse ρ × σ :=
  match body with
  | .error msg => (⟨500, .rpcError (-32603) "Internal error" (some msg) .null⟩, st)
  | .ok b =>
    if b.jsonrpc ≠ some "2.0" then
      (⟨400, .rpcError (-32600) "Invalid Request" none (if b.id.truthy then b.id else .null)⟩, st)
    else
      match dispatch b st with
      | .ok (r, st') => (⟨200, .result r b.id⟩, st')
      | .error msg => (⟨500, .rpcError (-32603) "Internal error" (some msg) .null⟩, st)

/-- Evaluation of a JavaScript identifier against its (possibly missing)
binding: an identifier with no binding in scope throws
`ReferenceError: <ident> is not defined`. -/
def jsRef {α : Type} (binding : Option α) (ident : String) : Except String α :=
  match binding with
  | some v => .ok v
  | none => .error (ident ++ " is not defined")

/-- The incoming HTTP request object as the nested handlers try to use it:
only its header lookup is relevant (`request.headers.get`). -/
structure JsRequest where
  headers : String → Option String

/-- A JSON-schema fragment as written in the static tool tables. -/
inductive Schema where
  | obj (properties : List (String × Schema)) (required : List String)
  | str (description : Option String)
  | num (description : Option String)
  | arr (items : Schema)

/-- A static tool descriptor `{name, description, inputSchema}`. -/
structure ToolDescriptor where
  name : String
  description : String
  inputSchema : Schema

/-- One entity record of the memory knowledge graph. -/
structure Entity where
  name : String
  entityType : String
  observations : List String
deriving DecidableEq, Repr

/-- A relation record of the memory knowledge graph (fields `from`, `to`,
`relationType` in the source; `from` is a Lean keyword). -/
structure Relation where
  from_ : String
  to_ : String
  relationType : String
deriving DecidableEq, Repr

/-- The stored knowledge graph `{entities: {...}, relations: [...]}`; the
`entities` object is an insertion-ordered map from entity name to record. -/
structure Graph where
  entities : List (String × Entity)
  relations : List Relation
deriving DecidableEq, Repr

/-- One entity descriptor of a `create_entities` input: `observations` is
optional (`entity.observations || []` in the source). -/
structure EntityInput where
  name : String
  entityType : String
  observations : Option (List String)
deriving DecidableEq, Repr

/-- The key list of a JS object modelled as an association list
(`Object.keys` order: insertion order). -/
def objKeys {α : Type} (m : List (String × α)) : List String :=
  m.map Prod.fst

/-- Latest binding of a key in the modelled key-value store. -/
def kvGet {α : Type} (st : List (String × α)) (k : String) : Option α :=
  (st.find? (fun p => p.1 = k)).map Prod.snd

/-- Overwriting put into the modelled key-value store. -/
def kvPut {α : Type} (st : List (String × α)) (k : String) (v : α) : List (String × α) :=
  (k, v) :: st.filter (fun p => ¬ p.1 = k)

/-- JS object property assignment `obj[key] = value` on an
insertion-ordered map: an existing key keeps its position and gets the new
value, a fresh key is appended at the end
(`graph.entities[entity.name] = {...}`, index.js line 261). -/
def insertEntity (m : List (String × Entity)) (e : Entity) : List (String × Entity) :=
  if m.any (fun p => p.1 = e.name) then
    m.map (fun p => if p.1 = e.name then (p.1, e) else p)
  else
    m ++ [(e.name, e)]

/-- Property read `m[k]` on the modelled JS object: the value at key `k`,
if present. -/
def lookupEntity : List (String × Entity) → String → Option Entity
  | [], _ => none
  | p :: t, k => if p.1 = k then some p.2 else lookupEntity t k

/-- The stored entity built from one input descriptor
(index.js lines 261-265). -/
def toEntity (i : EntityInput) : Entity :=
  { name := i.name, entityType := i.entityType, observations := i.observations.getD [] }

/-- The `for (const entity of args.entities)` loop of `create_entities`
(index.js lines 260-266): fold the input descriptors over an entity map,
assigning `entities[entity.name]` for each. -/
def entitiesFold (m : List (String × Entity)) (es : List EntityInput) : List (String × Entity) :=
  es.foldl (fun m i => insertEntity m (toEntity i)) m

/-- The `create_entities` store update (index.js lines 258-268): run the
entity loop over the graph's entity map; `relations` is untouched. -/
def createEntitiesUpdate (es : List EntityInput) (g : Graph) : Graph :=
  { g with entities := entitiesFold g.entities es }

/-- The text payload of one tool-result content item (type "text" plus text).
Serialized structures are kept symbolic: `jsonOfGraph g` stands for
`JSON.stringify(g, null, 2)` and the discord constructors stand for
`JSON.stringify` of the field projection built at the call site. -/
inductive ContentText where
  | raw (s : String)
  | jsonOfGraph (g : Graph)
  | jsonSentMessage (d : List (String × String))
  | jsonChannelInfo (d : List (String × String))
  | jsonGuildInfo (d : List (String × String))

/-- A tool-call result `{content: [...], isError?}`; an absent `isError`
member is the `false` case. -/
structure ToolRes where
  content : List ContentText
  isError : Bool

/-- The static result of `initialize`: protocol version, capability flags
(`tools: {}` always, `resources: {}` only on the filesystem server), and
the `serverInfo` name/version pair. -/
structure InitResult where
  protocolVersion : String
  toolsCapability : Bool
  resourcesCapability : Bool
  serverName : String
  serverVersion : String

/-- The typed union of dispatcher results: the three statically known
methods return an initialize descriptor, the static tool table, or a
tool-call result (returned verbatim as `result`). -/
inductive RpcResult where
  | initRes (r : InitResult)
  | toolsList (tools : List ToolDescriptor)
  | toolCall (r : ToolRes)

/-- The claim-level error notion for a response: an RPC error envelope, or
a `tools/call` success whose payload carries `is_error=true`. A plain
success (any other `result`) is not an error. -/
def respIsError (h : HttpResponse RpcResult) : Prop :=
  match h.body with
  | .rpcError _ _ _ _ => True
  | .result (.toolCall t) _ => t.isError = true
  | .result _ _ => False

/-- The static tool table of the memory server (index.js lines 122-216). -/
def memoryTools : List ToolDescriptor :=
  [ { name := "create_entities",
      description := "Create one or more entities in the knowledge graph",
      inputSchema := .obj
        [("entities", .arr (.obj
            [("name", .str none), ("entityType", .str none),
             ("observations", .arr (.str none))]
            ["name", "entityType"]))]
        ["entities"] },
    { name := "create_relations",
      description := "Create one or more relations between entities",
      inputSchema := .obj
        [("relations", .arr (.obj
            [("from", .str none), ("to", .str none), ("relationType", .str none)]
            ["from", "to", "relationType"]))]
        ["relations"] },
    { name := "add_observations",
      description := "Add observations to existing entities",
      inputSchema := .obj
        [("observations", .arr (.obj
            [("entityName", .str none), ("contents", .arr (.str none))]
            ["entityName", "contents"]))]
        ["observations"] },
    { name := "search_entities",
      description := "Search for entities in the knowledge graph",
      inputSchema := .obj [("query", .str none)] ["query"] },
    { name := "read_graph",
      description := "Read the entire knowledge graph",
      inputSchema := .obj [] [] } ]

/-- The tool names of the static memory tool table. -/
def memoryToolNames : List String :=
  memoryTools.map ToolDescriptor.name

/-- Params of a memory `tools/call`: `{name, arguments}` with
`arguments.entities` the `create_entities` descriptor list. -/
structure MemArgs where
  entities : List EntityInput

/-- The destructured `tools/call` params of the memory server. -/
structure MemParams where
  name : String
  arguments : MemArgs

/-- The modelled `MEMORY_KV` namespace: stored graphs keyed by
`memory:<user-id>`. -/
def MemStore : Type := List (String × Graph)

/-- The nested tool-call handler of the memory server (index.js lines 226-300).
Its first statement reads `request.headers` — but `request` is the
parameter of the enclosing `fetch` handler and is not in scope here, so the
function throws `ReferenceError: request is not defined` before inspecting
the tool name; the branches below the `jsRef` step are therefore dead code,
kept to mirror the source. -/
def handleMemoryToolCall (p : MemParams) (st : MemStore) :
    Except String (ToolRes × MemStore) :=
  match jsRef (α := JsRequest) none "request" with
  | .error e => .error e
  | .ok request =>
    let userMemoryKey := "memory:" ++ ((request.headers "X-User-Id").getD "default")
    if p.name = "read_graph" then
      let graph := (kvGet st userMemoryKey).getD { entities := [], relations := [] }
      .ok ({ content := [.jsonOfGraph graph], isError := false }, st)
    else if p.name = "create_entities" then
      let graph := (kvGet st userMemoryKey).getD { entities := [], relations := [] }
      let graph' := createEntitiesUpdate p.arguments.entities graph
      .ok ({ content := [.raw ("Created " ++ toString p.arguments.entities.length ++ " entities")],
             isError := false }, kvPut st userMemoryKey graph')
    else
      .ok ({ content := [.raw ("Tool " ++ p.name ++ " is being implemented")],
             isError := false }, st)

/-- The dispatcher of the memory server (index.js lines 106-224): a `switch` on
`method` with the three known cases and a default that throws
`Unknown method: <method>`. -/
def handleMemoryRequest (r : RpcRequest MemParams) (st : MemStore) :
    Except String (RpcResult × MemStore) :=
  if r.method = "initialize" then
    .ok (.initRes ⟨"2024-11-05", true, false, "memory-server", "0.6.3"⟩, st)
  else if r.method = "tools/list" then
    .ok (.toolsList memoryTools, st)
  else if r.method = "tools/call" then
    match handleMemoryToolCall r.params st with
    | .ok (t, st') => .ok (.toolCall t, st')
    | .error e => .error e
  else
    .error ("Unknown method: " ++ r.method)

/-- One appended step of a thinking session (part_000 lines 207-213). -/
structure Step where
  id : String
  query : String
  timestamp : String
  thinking : String
  conclusion : String
deriving DecidableEq, Repr

/-- A stored thinking session `{id, created, steps, updated?}`
(part_000 lines 200-216); `updated` is absent until the first append. -/
structure Session where
  id : String
  created : String
  steps : List Step
  updated : Option String
deriving DecidableEq, Repr

/-- Arguments of the `sequential_thinking` tool: required `query`,
optional `session_id`. -/
structure ThinkArgs where
  query : String
  session_id : Option String

/-- The destructured `tools/call` params of the thinking server. -/
structure ThinkParams where
  name : String
  arguments : ThinkArgs

/-- The modelled `THINKING_KV` namespace: sessions keyed by
`thinking:<user-id>:<session-id>`. -/
def ThinkStore : Type := List (String × Session)

/-- The body of the `sequential_thinking` branch (part_000 lines 196-228),
parameterized by the already-computed session id, the stored session (if
any) and the ISO timestamp: defaults a missing session to a fresh empty
one, builds a step whose id is `step_` followed by the new length
(`session.steps.length + 1` before the push), appends it, stamps
`updated`, and renders the markdown reply. -/
def sequentialThinkingBranch (args : ThinkArgs) (sessionId : String)
    (stored : Option Session) (nowIso : String) : Session × ToolRes :=
  let session := stored.getD { id := sessionId, created := nowIso, steps := [], updated := none }
  let step : Step :=
    { id := "step_" ++ toString (session.steps.length + 1),
      query := args.query,
      timestamp := nowIso,
      thinking := "Analyzing: " ++ args.query,
      conclusion := "This requires further analysis through structured thinking." }
  let session' := { session with steps := session.steps ++ [step], updated := some nowIso }
  (session',
   { content := [.raw ("**Sequential Thinking - Step " ++ step.id ++ "**\n\n**Query:** "
       ++ args.query ++ "\n\n**Analysis:** " ++ step.thinking ++ "\n\n**Conclusion:** "
       ++ step.conclusion ++ "\n\n**Session ID:** " ++ sessionId)],
     isError := false })

/-- The nested tool-call handler of the thinking server (part_000 lines
190-274). Its second statement reads `request.headers` — `request` is the
enclosing `fetch` parameter and is not in scope here, so the function
throws `ReferenceError: request is not defined` before inspecting the tool
name; the branches below are dead code kept to mirror the source. -/
def handleThinkingToolCall (p : ThinkParams) (st : ThinkStore)
    (nowMs : Nat) (nowIso : String) : Except String (ToolRes × ThinkStore) :=
  match jsRef (α := JsRequest) none "request" with
  | .error e => .error e
  | .ok request =>
    let userId := (request.headers "X-User-Id").getD "default"
    if p.name = "sequential_thinking" then
      let sessionId := p.arguments.session_id.getD ("session_" ++ toString nowMs)
      let sessionKey := "thinking:" ++ userId ++ ":" ++ sessionId
      let (session', res) := sequentialThinkingBranch p.arguments sessionId (kvGet st sessionKey) nowIso
      .ok (res, kvPut st sessionKey session')
    else if p.name = "list_sessions" then
      .ok ({ content := [.raw "Session listing functionality available - requires KV storage setup"],
             isError := false }, st)
    else
      .ok ({ content := [.raw ("Tool " ++ p.name ++ " is being implemented")],
             isError := false }, st)

/-- The static tool table of the thinking server (part_000 lines 122-180). -/
def thinkingTools : List ToolDescriptor :=
  [ { name := "sequential_thinking",
      description := "Engage in structured, step-by-step thinking to solve complex problems",
      inputSchema := .obj
        [("query", .str (some "The problem or question to think through")),
         ("session_id", .str (some "Optional session ID to continue a previous thinking session"))]
        ["query"] },
    { name := "get_thinking_session",
      description := "Retrieve a complete thinking session",
      inputSchema := .obj
        [("session_id", .str (some "The session ID to retrieve"))] ["session_id"] },
    { name := "list_sessions",
      description := "List all thinking sessions",
      inputSchema := .obj [] [] },
    { name := "clear_session",
      description := "Clear a specific thinking session",
      inputSchema := .obj
        [("session_id", .str (some "The session ID to clear"))] ["session_id"] } ]

/-- The tool names of the static thinking tool table. -/
def thinkingToolNames : List String :=
  thinkingTools.map ToolDescriptor.name

/-- The dispatcher of the thinking server (part_000 lines 106-188). -/
def handleThinkingRequest (nowMs : Nat) (nowIso : String)
    (r : RpcRequest ThinkParams) (st : ThinkStore) :
    Except String (RpcResult × ThinkStore) :=
  if r.method = "initialize" then
    .ok (.initRes ⟨"2024-11-05", true, false, "sequentialthinking-server", "0.6.3"⟩, st)
  else if r.method = "tools/list" then
    .ok (.toolsList thinkingTools, st)
  else if r.method = "tools/call" then
    match handleThinkingToolCall r.params st nowMs nowIso with
    | .ok (t, st') => .ok (.toolCall t, st')
    | .error e => .error e
  else
    .error ("Unknown method: " ++ r.method)

/-- The environment of the discord worker: only `DISCORD_TOKEN` matters to the
tool-call handler. -/
structure DiscordEnv where
  DISCORD_TOKEN : Option String

/-- The upstream `fetch` outcome observed by `makeDiscordRequest`: the HTTP
status triple plus the parsed JSON body (abstracted as a field map, since
the wrapper only projects named fields out of it for re-serialization). -/
structure UpstreamResponse where
  status : Nat
  statusText : String
  bodyText : String
  jsonData : List (String × String)

/-- Arguments of the discord tools (`channel_id`/`message`/`guild_id`). -/
structure DiscordArgs where
  channel_id : String
  message : String
  guild_id : String

/-- The destructured `tools/call` params of the discord server. -/
structure DiscordParams where
  name : String
  arguments : DiscordArgs

/-- `makeDiscordRequest` (part_001 lines 239-255): a non-2xx upstream
response (`!response.ok`) is surfaced as a thrown
`Discord API error: <status> <statusText> - <bodyText>`; a 2xx response
yields the parsed JSON body. The string is grouped so the status code
appears between two explicit context strings. -/
def makeDiscordRequest (endpoint : String) (resp : UpstreamResponse) :
    Except String (List (String × String)) :=
  if ¬ (200 ≤ resp.status ∧ resp.status ≤ 299) then
    .error ("Discord API error: " ++ toString resp.status
      ++ (" " ++ resp.statusText ++ " - " ++ resp.bodyText))
  else
    .ok resp.jsonData

/-- `sendMessage` (part_001 lines 257-291): posts to the channel endpoint
and wraps any thrown failure into a soft `isError` result. -/
def sendMessage (args : DiscordArgs) (token : String) (up : UpstreamResponse) : ToolRes :=
  match makeDiscordRequest ("channels/" ++ args.channel_id ++ "/messages") up with
  | .ok d => { content := [.jsonSentMessage d], isError := false }
  | .error e => { content := [.raw ("Error sending message: " ++ e)], isError := true }

/-- `getChannelInfo` (part_001 lines 293-331). -/
def getChannelInfo (args : DiscordArgs) (token : String) (up : UpstreamResponse) : ToolRes :=
  match makeDiscordRequest ("channels/" ++ args.channel_id) up with
  | .ok d => { content := [.jsonChannelInfo d], isError := false }
  | .error e => { content := [.raw ("Error getting channel info: " ++ e)], isError := true }

/-- `getGuildInfo` (part_001 lines 333-374). -/
def getGuildInfo (args : DiscordArgs) (token : String) (up : UpstreamResponse) : ToolRes :=
  match makeDiscordRequest ("guilds/" ++ args.guild_id) up with
  | .ok d => { content := [.jsonGuildInfo d], isError := false }
  | .error e => { content := [.raw ("Error getting guild info: " ++ e)], isError := true }

/-- The tool-call handler of the discord server (part_001 lines 218-237): a
missing/empty `DISCORD_TOKEN` throws; the `switch` on `name` routes the
three known tools and the default throws `Unknown tool: <name>`. -/
def handleToolCall (p : DiscordParams) (env : DiscordEnv) (up : UpstreamResponse) :
    Except String ToolRes :=
  let discordToken := env.DISCORD_TOKEN.getD ""
  if discordToken = "" then
    .error "DISCORD_TOKEN is required"
  else if p.name = "send_message" then
    .ok (sendMessage p.arguments discordToken up)
  else if p.name = "get_channel_info" then
    .ok (getChannelInfo p.arguments discordToken up)
  else if p.name = "get_guild_info" then
    .ok (getGuildInfo p.arguments discordToken up)
  else
    .error ("Unknown tool: " ++ p.name)

/-- The static tool table of the discord server (part_001 lines 170-208). -/
def discordTools : List ToolDescriptor :=
  [ { name := "send_message",
      description := "Send a message to a Discord channel (requires bot permissions and real-time connection).",
      inputSchema := .obj
        [("channel_id", .str (some "Discord channel ID")),
         ("message", .str (some "Message content to send"))]
        ["channel_id", "message"] },
    { name := "get_channel_info",
      description := "Get information about a Discord channel via REST API.",
      inputSchema := .obj
        [("channel_id", .str (some "Discord channel ID"))] ["channel_id"] },
    { name := "get_guild_info",
      description := "Get information about a Discord server/guild via REST API.",
      inputSchema := .obj
        [("guild_id", .str (some "Discord guild/server ID"))] ["guild_id"] } ]

/-- The tool names of the static discord tool table. -/
def discordToolNames : List String :=
  discordTools.map ToolDescriptor.name

/-- The dispatcher of the discord server, `handleMCPRequest`
(part_001 lines 159-216); it holds no per-call storage, so the threaded
state is `Unit`. -/
def handleMCPRequest (env : DiscordEnv) (up : UpstreamResponse)
    (r : RpcRequest DiscordParams) (st : Unit) :
    Except String (RpcResult × Unit) :=
  if r.method = "initialize" then
    .ok (.initRes ⟨"2024-11-05", true, false, "discord-server", "1.0.0"⟩, st)
  else if r.method = "tools/list" then
    .ok (.toolsList discordTools, st)
  else if r.method = "tools/call" then
    match handleToolCall r.params env up with
    | .ok t => .ok (.toolCall t, st)
    | .error e => .error e
  else
    .error ("Unknown method: " ++ r.method)

/-- The destructured `tools/call` params of the filesystem server. -/
structure FsParams where
  name : String

/-- The tool-call handler of the filesystem server (part_001 lines 584-614):
two placeholder tools, default throws `Unknown tool: <name>`. -/
def handleFilesystemToolCall (p : FsParams) : Except String ToolRes :=
  if p.name = "read_file" then
    .ok { content := [.raw "File operations in Workers require adaptation to cloud storage APIs"],
          isError := false }
  else if p.name = "write_file" then
    .ok { content := [.raw "File write operations in Workers require adaptation to cloud storage APIs"],
          isError := false }
  else
    .error ("Unknown tool: " ++ p.name)

/-- The static tool table of the filesystem server (part_001 lines 538-574). -/
def filesystemTools : List ToolDescriptor :=
  [ { name := "read_file",
      description := "Read the complete contents of a file from the file system",
      inputSchema := .obj
        [("path", .str (some "The path of the file to read"))] ["path"] },
    { name := "write_file",
      description := "Create a new file or completely overwrite an existing file with new content",
      inputSchema := .obj
        [("path", .str (some "The path of the file to write")),
         ("content", .str (some "The content to write to the file"))]
        ["path", "content"] } ]

/-- The tool names of the static filesystem tool table. -/
def filesystemToolNames : List String :=
  filesystemTools.map ToolDescriptor.name

/-- The dispatcher of the filesystem server, `handleFilesystemRequest`
(part_001 lines 521-582); it threads no storage. -/
def handleFilesystemRequest (r : RpcRequest FsParams) : Except String RpcResult :=
  if r.method = "initialize" then
    .ok (.initRes ⟨"2024-11-05", true, true, "filesystem-server", "0.6.3"⟩)
  else if r.method = "tools/list" then
    .ok (.toolsList filesystemTools)
  else if r.method = "tools/call" then
    match handleFilesystemToolCall r.params with
    | .ok t => .ok (.toolCall t)
    | .error e => .error e
  else
    .error ("Unknown method: " ++ r.method)

/-- Last matching value for a key among the `create_entities` inputs: the
entity stored for `k` once the whole descriptor list has been folded in,
if any descriptor names `k`. -/
def lastValIn : List EntityInput → String → Option Entity
  | [], _ => none
  | i :: t, k =>
    match lastValIn t k with
    | some v => some v
    | none => if i.name = k then some (toEntity i) else none

/-- The steps that `k` successive `sequential_thinking` calls append to a
session whose step list currently has length `L`: ids `step_(L+1)`,
`step_(L+2)`, ... in call order. -/
def appendedSteps (L : Nat) (qs : List String) (nowIso : String) : List Step :=
  match qs with
  | [] => []
  | q :: rest =>
    { id := "step_" ++ toString (L + 1),
      query := q,
      timestamp := nowIso,
      thinking := "Analyzing: " ++ q,
      conclusion := "This requires further analysis through structured thinking." }
      :: appendedSteps (L + 1) rest nowIso

/-- Iterated `sequential_thinking` branch evaluation for a fixed session
id: each call feeds the previously stored session back in. -/
def iterSessions (qs : List String) (sessionId : String) (s : Session) (nowIso : String) : Session :=
  qs.foldl (fun s q => (sequentialThinkingBranch ⟨q, some sessionId⟩ sessionId (some s) nowIso).1) s

/-- Key list of the empty object. -/
@[simp] theorem objKeys_nil {α : Type} : objKeys ([] : List (String × α)) = [] := rfl

/-- Key list of a cons. -/
@[simp] theorem objKeys_cons {α : Type} (p : String × α) (l : List (String × α)) :
    objKeys (p :: l) = p.1 :: objKeys l := rfl

/-- Assigning to a key that is already present does not change the key
list (the JS object keeps the position of the key). -/
theorem objKeys_insertEntity_of_mem {m : List (String × Entity)} {e : Entity}
    (h : e.name ∈ objKeys m) : objKeys (insertEntity m e) = objKeys m := by
  have hany : m.any (fun p => p.1 = e.name) = true := by
    simp only [List.any_eq_true, decide_eq_true_eq]
    rcases List.mem_map.mp h with ⟨p, hp, hfst⟩
    exact ⟨p, hp, hfst⟩
  simp only [insertEntity, hany, if_true]
  clear h hany
  induction m with
  | nil => rfl
  | cons p t ih =>
    by_cases hc : p.1 = e.name <;> simp [hc, ih]

/-- Assigning to a fresh key appends it at the end of the key list. -/
theorem objKeys_insertEntity_of_not_mem {m : List (String × Entity)} {e : Entity}
    (h : e.name ∉ objKeys m) : objKeys (insertEntity m e) = objKeys m ++ [e.name] := by
  have hany : m.any (fun p => p.1 = e.name) = false := by
    simp only [List.any_eq_false, decide_eq_true_eq]
    intro p hp hfst
    exact h (List.mem_map.mpr ⟨p, hp, hfst⟩)
  simp [insertEntity, hany, objKeys]

/-- Membership in the key list after one assignment. -/
theorem mem_objKeys_insertEntity {m : List (String × Entity)} {e : Entity} {k : String} :
    k ∈ objKeys (insertEntity m e) ↔ k ∈ objKeys m ∨ k = e.name := by
  by_cases h : e.name ∈ objKeys m
  · rw [objKeys_insertEntity_of_mem h]
    constructor
    · exact Or.inl
    · rintro (hk | rfl) <;> [exact hk; exact h]
  · rw [objKeys_insertEntity_of_not_mem h]
    simp [List.mem_append]

/-- One assignment preserves distinctness of the key list. -/
theorem nodup_objKeys_insertEntity {m : List (String × Entity)} {e : Entity}
    (h : (objKeys m).Nodup) : (objKeys (insertEntity m e)).Nodup := by
  by_cases hm : e.name ∈ objKeys m
  · rwa [objKeys_insertEntity_of_mem hm]
  · rw [objKeys_insertEntity_of_not_mem hm, List.nodup_append]
    refine ⟨h, List.nodup_singleton _, ?_⟩
    intro a ha hae
    simp only [List.mem_singleton] at hae
    subst hae
    exact hm ha

/-- A key absent from the key list reads back as `undefined`. -/
theorem lookupEntity_eq_none {m : List (String × Entity)} {k : String}
    (h : k ∉ objKeys m) : lookupEntity m k = none := by
  induction m with
  | nil => rfl
  | cons p t ih =>
    simp only [objKeys_cons, List.mem_cons, not_or] at h
    simpa [lookupEntity, Ne.symm h.1] using ih h.2

/-- A key present in the key list reads back as some value. -/
theorem lookupEntity_isSome {m : List (String × Entity)} {k : String}
    (h : k ∈ objKeys m) : ∃ v, lookupEntity m k = some v := by
  induction m with
  | nil => simp at h
  | cons p t ih =>
    by_cases hk : p.1 = k
    · exact ⟨p.2, by simp [lookupEntity, hk]⟩
    · simp only [objKeys_cons, List.mem_cons] at h
      rcases h with h | h
      · exact absurd h.symm hk
      · simpa [lookupEntity, hk] using ih h

/-- Reading a key out of the update-in-place map used when the assigned
key already exists: the assigned key sees the new value, other keys see
their old values. -/
theorem lookupEntity_map_assign (m : List (String × Entity)) (e : Entity) (k : String) :
    lookupEntity (m.map (fun p => if p.1 = e.name then (p.1, e) else p)) k
      = (lookupEntity m k).map (fun v => if k = e.name then e else v) := by
  induction m with
  | nil => rfl
  | cons p t ih =>
    by_cases hke : p.1 = e.name
    · by_cases hpk : p.1 = k
      · subst hpk
        simp [lookupEntity, hke]
      · have h2 : ¬ e.name = k := hke ▸ hpk
        simp [lookupEntity, hke, h2, hpk, ih]
    · by_cases hpk : p.1 = k
      · subst hpk
        simp [lookupEntity, hke]
      · simp [lookupEntity, hke, hpk, ih]

/-- Reading a key out of the append used when the assigned key is fresh. -/
theorem lookupEntity_append_single (m : List (String × Entity)) (e : Entity) (k : String) :
    lookupEntity (m ++ [(e.name, e)]) k
      = match lookupEntity m k with
        | some v => some v
        | none => if e.name = k then some e else none := by
  induction m with
  | nil => simp [lookupEntity]
  | cons p t ih =>
    by_cases hpk : p.1 = k <;> simp [lookupEntity, hpk, ih]

/-- Reading back after one assignment: the assigned key sees the new
value, every other key is untouched (last-write-wins at the single
assignment level). -/
theorem lookupEntity_insertEntity (m : List (String × Entity)) (e : Entity) (k : String) :
    lookupEntity (insertEntity m e) k = if k = e.name then some e else lookupEntity m k := by
  by_cases hmem : e.name ∈ objKeys m
  · have hany : m.any (fun p => p.1 = e.name) = true := by
      simp only [List.any_eq_true, decide_eq_true_eq]
      rcases List.mem_map.mp hmem with ⟨p, hp, hfst⟩
      exact ⟨p, hp, hfst⟩
    simp only [insertEntity, hany, if_true]
    rw [lookupEntity_map_assign]
    by_cases hk : k = e.name
    · subst hk
      rcases lookupEntity_isSome hmem with ⟨v, hv⟩
      simp [hv]
    · cases h : lookupEntity m k <;> simp [h, hk]
  · have hany : m.any (fun p => p.1 = e.name) = false := by
      simp only [List.any_eq_false, decide_eq_true_eq]
      intro p hp hfst
      exact hmem (List.mem_map.mpr ⟨p, hp, hfst⟩)
    simp only [insertEntity, hany, Bool.false_eq_true, if_false]
    rw [lookupEntity_append_single]
    by_cases hk : k = e.name
    · subst hk
      simp [lookupEntity_eq_none hmem]
    · cases h : lookupEntity m k <;> simp [h, hk, Ne.symm hk]

/-- Unfolding one step of the entity loop. -/
theorem entitiesFold_cons (m : List (String × Entity)) (i : EntityInput) (t : List EntityInput) :
    entitiesFold m (i :: t) = entitiesFold (insertEntity m (toEntity i)) t := rfl

/-- Last-write-wins reads over the whole `create_entities` loop: a key
named by some input reads back as the entity built from the last input
naming it; any other key keeps its previous value. -/
theorem lookupEntity_entitiesFold (es : List EntityInput) (m : List (String × Entity)) (k : String) :
    lookupEntity (entitiesFold m es) k
      = match lastValIn es k with
        | some v => some v
        | none => lookupEntity m k := by
  induction es generalizing m with
  | nil => rfl
  | cons i t ih =>
    rw [entitiesFold_cons, ih]
    cases hlv : lastValIn t k with
    | some v => simp [lastValIn, hlv]
    | none =>
      simp only [lastValIn, hlv, lookupEntity_insertEntity]
      by_cases hk : i.name = k
      · subst hk
        simp [toEntity]
      · have hk' : ¬ k = i.name := fun h => hk h.symm
        simp [toEntity, hk, hk']

/-- Key membership after the whole loop: exactly the old keys plus the
input names. -/
theorem mem_objKeys_entitiesFold (es : List EntityInput) (m : List (String × Entity)) (k : String) :
    k ∈ objKeys (entitiesFold m es) ↔ k ∈ objKeys m ∨ k ∈ es.map EntityInput.name := by
  induction es generalizing m with
  | nil => simp [entitiesFold]
  | cons i t ih =>
    rw [entitiesFold_cons, ih]
    rw [mem_objKeys_insertEntity]
    simp [toEntity, or_assoc, or_comm (a := k = i.name)]

/-- The loop preserves distinctness of the key list. -/
theorem nodup_objKeys_entitiesFold (es : List EntityInput) (m : List (String × Entity))
    (h : (objKeys m).Nodup) : (objKeys (entitiesFold m es)).Nodup := by
  induction es generalizing m with
  | nil => exact h
  | cons i t ih =>
    rw [entitiesFold_cons]
    exact ih _ (nodup_objKeys_insertEntity h)

/-- If every input name is already a key, the loop leaves the key list
unchanged (updates in place). -/
theorem objKeys_entitiesFold_of_subset (es : List EntityInput) (m : List (String × Entity))
    (h : ∀ i ∈ es, i.name ∈ objKeys m) : objKeys (entitiesFold m es) = objKeys m := by
  induction es generalizing m with
  | nil => rfl
  | cons i t ih =>
    rw [entitiesFold_cons]
    have hi : (toEntity i).name ∈ objKeys m := h i (List.mem_cons_self i t)
    have hkeys : objKeys (insertEntity m (toEntity i)) = objKeys m :=
      objKeys_insertEntity_of_mem hi
    rw [ih _ (fun j hj => hkeys ▸ h j (List.mem_cons_of_mem i hj)), hkeys]

/-- If the input names are distinct and all fresh, the loop appends
exactly the input names to the key list, in input order. -/
theorem objKeys_entitiesFold_of_disjoint (es : List EntityInput) (m : List (String × Entity))
    (hd : ∀ i ∈ es, i.name ∉ objKeys m) (hnd : (es.map EntityInput.name).Nodup) :
    objKeys (entitiesFold m es) = objKeys m ++ es.map EntityInput.name := by
  induction es generalizing m with
  | nil => simp [entitiesFold]
  | cons i t ih =>
    rw [entitiesFold_cons]
    have hi : (toEntity i).name ∉ objKeys m := hd i (List.mem_cons_self i t)
    have hkeys : objKeys (insertEntity m (toEntity i)) = objKeys m ++ [i.name] :=
      objKeys_insertEntity_of_not_mem hi
    simp only [List.map_cons, List.nodup_cons] at hnd
    have ht : ∀ j ∈ t, j.name ∉ objKeys (insertEntity m (toEntity i)) := by
      intro j hj
      rw [hkeys]
      simp only [List.mem_append, List.mem_singleton, not_or]
      refine ⟨hd j (List.mem_cons_of_mem i hj), ?_⟩
      intro hji
      exact hnd.1 (hji ▸ List.mem_map.mpr ⟨j, hj, rfl⟩)
    rw [ih _ ht hnd.2, hkeys]
    simp

/-- Two JS objects with the same distinct key list and the same reads are
the same object. -/
theorem lookupEntity_ext (m₁ m₂ : List (String × Entity))
    (hnd : (objKeys m₁).Nodup) (hk : objKeys m₁ = objKeys m₂)
    (hl : ∀ k, lookupEntity m₁ k = lookupEntity m₂ k) : m₁ = m₂ := by
  induction m₁ generalizing m₂ with
  | nil =>
    cases m₂ with
    | nil => rfl
    | cons q u => simp at hk
  | cons p t ih =>
    cases m₂ with
    | nil => simp at hk
    | cons q u =>
      simp only [objKeys_cons, List.cons.injEq] at hk
      have hv : p.2 = q.2 := by
        have := hl p.1
        simp only [lookupEntity, if_pos rfl] at this
        rw [← hk.1, if_pos rfl] at this
        exact Option.some.inj this
      simp only [objKeys_cons, List.nodup_cons] at hnd
      have htl : ∀ k, lookupEntity t k = lookupEntity u k := by
        intro k
        by_cases hpk : k = p.1
        · subst hpk
          rw [lookupEntity_eq_none hnd.1, lookupEntity_eq_none (hk.2 ▸ hnd.1)]
        · have := hl k
          have hne : ¬ p.1 = k := fun h => hpk h.symm
          rw [lookupEntity, lookupEntity, if_neg hne, ← hk.1, if_neg hne] at this
          exact this
      have : t = u := ih u hnd.2 hk.2 htl
      cases p
      cases q
      simp only at hv hk
      rw [this, hk.1, hv]

/-- Running the `create_entities` loop twice with the same inputs gives
the same entity map as running it once. -/
theorem entitiesFold_idem (es : List EntityInput) (m : List (String × Entity))
    (hnd : (objKeys m).Nodup) :
    entitiesFold (entitiesFold m es) es = entitiesFold m es := by
  have hndF : (objKeys (entitiesFold m es)).Nodup := nodup_objKeys_entitiesFold es m hnd
  refine lookupEntity_ext _ _ (nodup_objKeys_entitiesFold es _ hndF) ?_ ?_
  · exact objKeys_entitiesFold_of_subset es _ (fun i hi =>
      (mem_objKeys_entitiesFold es m i.name).mpr (Or.inr (List.mem_map.mpr ⟨i, hi, rfl⟩)))
  · intro k
    rw [lookupEntity_entitiesFold]
    cases hlv : lastValIn es k with
    | some v => rw [lookupEntity_entitiesFold, hlv]
    | none => rfl

/-- Concatenation of strings is associative (needed to exhibit the status
code as an infix of the rendered error message). -/
theorem stringAppend_assoc (a b c : String) : a ++ b ++ c = a ++ (b ++ c) := by
  obtain ⟨x⟩ := a
  obtain ⟨y⟩ := b
  obtain ⟨z⟩ := c
  show String.mk (x ++ y ++ z) = String.mk (x ++ (y ++ z))
  rw [List.append_assoc]

/-- One `sequential_thinking` call on a stored session appends exactly one
step, whose id is `step_` followed by the new length. -/
theorem sequentialThinkingBranch_steps (args : ThinkArgs) (sessionId : String)
    (s : Session) (nowIso : String) :
    (sequentialThinkingBranch args sessionId (some s) nowIso).1.steps
      = s.steps ++ [{ id := "step_" ++ toString (s.steps.length + 1),
                      query := args.query,
                      timestamp := nowIso,
                      thinking := "Analyzing: " ++ args.query,
                      conclusion := "This requires further analysis through structured thinking." }] := rfl

/-- Iterated `sequential_thinking` calls on the same session append the
steps described by `appendedSteps`: one step per call, in call order, with
ids `step_(L+1)`, `step_(L+2)`, ... -/
theorem iterSessions_steps (qs : List String) (sessionId nowIso : String) (s : Session) :
    (iterSessions qs sessionId s nowIso).steps
      = s.steps ++ appendedSteps s.steps.length qs nowIso := by
  induction qs generalizing s with
  | nil => simp [iterSessions, appendedSteps]
  | cons q t ih =>
    show (iterSessions t sessionId
        ((sequentialThinkingBranch ⟨q, some sessionId⟩ sessionId (some s) nowIso).1) nowIso).steps = _
    rw [ih]
    simp [sequentialThinkingBranch, appendedSteps, List.append_assoc]

/-- `appendedSteps` contributes one step per call. -/
theorem appendedSteps_length (L : Nat) (qs : List String) (nowIso : String) :
    (appendedSteps L qs nowIso).length = qs.length := by
  induction qs generalizing L with
  | nil => rfl
  | cons q t ih => simp [appendedSteps, ih]

/-- After `k` same-session calls a session of length `L` has `L + k`
steps (the behaviour the spec ascribes to the handler; see the
`request`-scope defect for why the deployed handler never reaches this
code). -/
theorem iterSessions_length (qs : List String) (sessionId nowIso : String) (s : Session) :
    (iterSessions qs sessionId s nowIso).steps.length = s.steps.length + qs.length := by
  rw [iterSessions_steps]
  simp [appendedSteps_length]

/-- C4: the nested tool-call handlers of the memory and sequential-thinking
wrappers read the `request` variable of the outer, already-exited `fetch`
scope; evaluation therefore fails with `ReferenceError: request is not
defined` for every `tools/call` — whatever the tool name — before any tool
branch runs, and the error branch of the outer dispatch boundary turns this
into the `500` / `-32603` envelope. -/
theorem requestScope_defect :
    (∀ (p : MemParams) (st : MemStore),
        handleMemoryToolCall p st = .error "request is not defined")
    ∧ (∀ (p : ThinkParams) (st : ThinkStore) (nowMs : Nat) (nowIso : String),
        handleThinkingToolCall p st nowMs nowIso = .error "request is not defined")
    ∧ (∀ (p : MemParams) (i : RpcId) (st : MemStore),
        handlePost handleMemoryRequest
          (.ok { jsonrpc := some "2.0", method := "tools/call", params := p, id := i }) st
          = (⟨500, .rpcError (-32603) "Internal error" (some "request is not defined") .null⟩, st))
    ∧ (∀ (p : ThinkParams) (i : RpcId) (st : ThinkStore) (nowMs : Nat) (nowIso : String),
        handlePost (handleThinkingRequest nowMs nowIso)
          (.ok { jsonrpc := some "2.0", method := "tools/call", params := p, id := i }) st
          = (⟨500, .rpcError (-32603) "Internal error" (some "request is not defined") .null⟩, st)) :=
  ⟨fun _ _ => rfl, fun _ _ _ _ => rfl, fun _ _ _ => rfl, fun _ _ _ _ _ => rfl⟩

/-- C1: a `tools/call` naming a tool outside the static tool table of a server
never gets a plain success response. On the memory and thinking servers
every `tools/call` — in particular one with an unknown name — is answered
with an RPC error envelope (the handlers fail at the out-of-scope
`request` reference before the unknown-name fallthrough could produce its
placeholder success); on the discord server an unknown name throws
`Unknown tool: <name>` which the boundary maps to an error envelope, and
on the filesystem server the handler likewise throws. -/
theorem unknownTool_never_plain_success :
    (∀ (p : MemParams) (i : RpcId) (st : MemStore),
        p.name ∉ memoryToolNames →
        respIsError (handlePost handleMemoryRequest
          (.ok { jsonrpc := some "2.0", method := "tools/call", params := p, id := i }) st).1)
    ∧ (∀ (p : ThinkParams) (i : RpcId) (st : ThinkStore) (nowMs : Nat) (nowIso : String),
        p.name ∉ thinkingToolNames →
        respIsError (handlePost (handleThinkingRequest nowMs nowIso)
          (.ok { jsonrpc := some "2.0", method := "tools/call", params := p, id := i }) st).1)
    ∧ (∀ (p : DiscordParams) (i : RpcId) (env : DiscordEnv) (up : UpstreamResponse),
        p.name ∉ discordToolNames →
        respIsError (handlePost (handleMCPRequest env up)
          (.ok { jsonrpc := some "2.0", method := "tools/call", params := p, id := i }) ()).1)
    ∧ (∀ (p : FsParams),
        p.name ∉ filesystemToolNames →
        handleFilesystemToolCall p = .error ("Unknown tool: " ++ p.name)) := by
  refine ⟨fun p i st _ => trivial, fun p i st nowMs nowIso _ => trivial, ?_, ?_⟩
  · intro p i env up h
    simp only [discordToolNames, discordTools, List.map_cons, List.map_nil,
      List.mem_cons, List.not_mem_nil, or_false, not_or] at h
    obtain ⟨h1, h2, h3⟩ := h
    by_cases htok : env.DISCORD_TOKEN.getD "" = "" <;>
      simp [handlePost, handleMCPRequest, handleToolCall, respIsError, h1, h2, h3, htok]
  · intro p h
    simp only [filesystemToolNames, filesystemTools, List.map_cons, List.map_nil,
      List.mem_cons, List.not_mem_nil, or_false, not_or] at h
    simp [handleFilesystemToolCall, h.1, h.2]

/-- C1 witness: the memory server answers the unknown tool name
`bogus_tool` with an error response. -/
theorem unknownTool_never_plain_success_witness :
    respIsError (handlePost handleMemoryRequest
      (.ok { jsonrpc := some "2.0", method := "tools/call",
             params := { name := "bogus_tool", arguments := { entities := [] } },
             id := .num 1 })
      ([] : MemStore)).1 :=
  unknownTool_never_plain_success.1
    { name := "bogus_tool", arguments := { entities := [] } } (.num 1) [] (by decide)

/-- C8: on each server, `tools/list` is pure and deterministic: for every
request with that method, any params/id and any state, the dispatcher
returns exactly the static tool table and leaves the state unchanged —
hence any two invocations, in any order and with any calls in between,
return identical descriptor sequences. -/
theorem toolsList_pure_deterministic :
    (∀ (jz : Option String) (p : MemParams) (i : RpcId) (st : MemStore),
        handleMemoryRequest { jsonrpc := jz, method := "tools/list", params := p, id := i } st
          = .ok (.toolsList memoryTools, st))
    ∧ (∀ (nowMs : Nat) (nowIso : String) (jz : Option String) (p : ThinkParams) (i : RpcId)
          (st : ThinkStore),
        handleThinkingRequest nowMs nowIso
            { jsonrpc := jz, method := "tools/list", params := p, id := i } st
          = .ok (.toolsList thinkingTools, st))
    ∧ (∀ (env : DiscordEnv) (up : UpstreamResponse) (jz : Option String) (p : DiscordParams)
          (i : RpcId),
        handleMCPRequest env up { jsonrpc := jz, method := "tools/list", params := p, id := i } ()
          = .ok (.toolsList discordTools, ()))
    ∧ (∀ (jz : Option String) (p : FsParams) (i : RpcId),
        handleFilesystemRequest { jsonrpc := jz, method := "tools/list", params := p, id := i }
          = .ok (.toolsList filesystemTools)) :=
  ⟨fun _ _ _ _ => rfl, fun _ _ _ _ _ _ => rfl, fun _ _ _ _ _ => rfl, fun _ _ _ => rfl⟩

/-- C2 counterexample: a parseable body with the protocol marker missing
and `id: 0` gets the `400` / `-32600` envelope, but its response id is
`null`, not the request's id `0` (the source computes `body.id || null`
and `0` is falsy). -/
theorem invalidRequest_id_zero_counterexample :
    ((handlePost handleMemoryRequest
        (.ok { jsonrpc := none, method := "tools/list",
               params := { name := "", arguments := { entities := [] } }, id := .num 0 })
        ([] : MemStore)).1.body
      = .rpcError (-32600) "Invalid Request" none .null)
    ∧ RpcId.null ≠ RpcId.num 0 :=
  ⟨rfl, by decide⟩

/-- C2 (amended): a parseable `POST /` body whose `jsonrpc` member is
missing or differs from the literal `"2.0"` is answered with HTTP `400`
carrying error code `-32600`; the response id echoes the request id only
when that id is truthy (a nonzero number or nonempty string) and is
otherwise rendered as `null` — in particular ids `0` and `""` collapse to
`null`, and a `null` id stays `null`. -/
theorem invalidRequest_envelope {π ρ σ : Type}
    (dispatch : RpcRequest π → σ → Except String (ρ × σ))
    (b : RpcRequest π) (st : σ) (h : b.jsonrpc ≠ some "2.0") :
    handlePost dispatch (.ok b) st
      = (⟨400, .rpcError (-32600) "Invalid Request" none
            (if b.id.truthy then b.id else .null)⟩, st) := by
  simp only [handlePost]
  rw [if_pos h]

/-- C2 witness: a marker mismatch with the truthy id `"abc"` echoes the
id in the `400` envelope. -/
theorem invalidRequest_envelope_witness :
    handlePost handleMemoryRequest
      (.ok { jsonrpc := some "1.0", method := "tools/list",
             params := { name := "", arguments := { entities := [] } }, id := .str "abc" })
      ([] : MemStore)
      = (⟨400, .rpcError (-32600) "Invalid Request" none (.str "abc")⟩, []) :=
  invalidRequest_envelope handleMemoryRequest
    { jsonrpc := some "1.0", method := "tools/list",
      params := { name := "", arguments := { entities := [] } }, id := .str "abc" }
    [] (by decide)

/-- C3 counterexample: a fully parseable request (marker `"2.0"`,
`id: 7`) whose dispatch throws (unknown method) is answered with a
`-32603` envelope whose id is `null`, not the request's id `7` — so the
response id is `null` in a case where the request was parseable. -/
theorem response_id_counterexample :
    ((handlePost handleMemoryRequest
        (.ok { jsonrpc := some "2.0", method := "bogus/method",
               params := { name := "", arguments := { entities := [] } }, id := .num 7 })
        ([] : MemStore)).1.body
      = .rpcError (-32603) "Internal error" (some "Unknown method: bogus/method") .null)
    ∧ RpcId.null ≠ RpcId.num 7 :=
  ⟨rfl, by decide⟩

/-- C3 (amended): for a parseable request with a valid marker, the
response id echoes the request id exactly on the success path; when
dispatch throws after parsing, the catch branch hardcodes the response id
to `null` (it does not echo); and an unparseable body also gets id
`null`. -/
theorem response_id_characterization {π ρ σ : Type}
    (dispatch : RpcRequest π → σ → Except String (ρ × σ))
    (b : RpcRequest π) (st : σ) (hjz : b.jsonrpc = some "2.0") :
    (∀ (r : ρ) (st' : σ), dispatch b st = .ok (r, st') →
        handlePost dispatch (.ok b) st = (⟨200, .result r b.id⟩, st'))
    ∧ (∀ msg, dispatch b st = .error msg →
        handlePost dispatch (.ok b) st
          = (⟨500, .rpcError (-32603) "Internal error" (some msg) .null⟩, st))
    ∧ (∀ msg, handlePost dispatch (.error msg) st
          = (⟨500, .rpcError (-32603) "Internal error" (some msg) .null⟩, st)) := by
  refine ⟨?_, ?_, fun msg => rfl⟩
  · intro r st' hd
    simp [handlePost, hjz, hd]
  · intro msg hd
    simp [handlePost, hjz, hd]

/-- C3 witness: an `initialize` request with id `9` is echoed with id `9`
on the success path. -/
theorem response_id_characterization_witness :
    handlePost handleMemoryRequest
      (.ok { jsonrpc := some "2.0", method := "initialize",
             params := { name := "", arguments := { entities := [] } }, id := .num 9 })
      ([] : MemStore)
      = (⟨200, .result (.initRes
            { protocolVersion := "2024-11-05", toolsCapability := true,
              resourcesCapability := false, serverName := "memory-server",
              serverVersion := "0.6.3" }) (.num 9)⟩, []) :=
  (response_id_characterization handleMemoryRequest
    { jsonrpc := some "2.0", method := "initialize",
      params := { name := "", arguments := { entities := [] } }, id := .num 9 }
    [] rfl).1 _ _ rfl

/-- C9: a parsed request whose method is none of `initialize`,
`tools/list`, `tools/call` makes the dispatcher throw the generic
`Unknown method: <method>`, which the outermost boundary maps to a
`500` / `-32603` "Internal error" envelope carrying the exception message
as `data`; this single catch is the only handling (no retry, no dedicated
method-not-found code). -/
theorem unknownMethod_maps_to_internal_error (m : String)
    (h1 : m ≠ "initialize") (h2 : m ≠ "tools/list") (h3 : m ≠ "tools/call") :
    (∀ (p : MemParams) (i : RpcId) (st : MemStore),
        handlePost handleMemoryRequest
          (.ok { jsonrpc := some "2.0", method := m, params := p, id := i }) st
          = (⟨500, .rpcError (-32603) "Internal error"
                (some ("Unknown method: " ++ m)) .null⟩, st))
    ∧ (∀ (nowMs : Nat) (nowIso : String) (p : ThinkParams) (i : RpcId) (st : ThinkStore),
        handlePost (handleThinkingRequest nowMs nowIso)
          (.ok { jsonrpc := some "2.0", method := m, params := p, id := i }) st
          = (⟨500, .rpcError (-32603) "Internal error"
                (some ("Unknown method: " ++ m)) .null⟩, st))
    ∧ (∀ (env : DiscordEnv) (up : UpstreamResponse) (p : DiscordParams) (i : RpcId),
        handlePost (handleMCPRequest env up)
          (.ok { jsonrpc := some "2.0", method := m, params := p, id := i }) ()
          = (⟨500, .rpcError (-32603) "Internal error"
                (some ("Unknown method: " ++ m)) .null⟩, ()))
    ∧ (∀ (p : FsParams) (i : RpcId),
        handleFilesystemRequest { jsonrpc := some "2.0", method := m, params := p, id := i }
          = .error ("Unknown method: " ++ m)) := by
  refine ⟨?_, ?_, ?_, ?_⟩ <;> intros <;>
    simp [handlePost, handleMemoryRequest, handleThinkingRequest, handleMCPRequest,
      handleFilesystemRequest, h1, h2, h3]

/-- C9 witness: the unknown method `resources/list` on the memory server. -/
theorem unknownMethod_maps_to_internal_error_witness :
    handlePost handleMemoryRequest
      (.ok { jsonrpc := some "2.0", method := "resources/list",
             params := { name := "", arguments := { entities := [] } }, id := .num 2 })
      ([] : MemStore)
      = (⟨500, .rpcError (-32603) "Internal error"
            (some "Unknown method: resources/list") .null⟩, []) :=
  (unknownMethod_maps_to_internal_error "resources/list"
    (by decide) (by decide) (by decide)).1
    { name := "", arguments := { entities := [] } } (.num 2) []

/-- C5 failing input: a `sequential_thinking` call with `session_id "s"`
against a stored session of length 0 does not append a step — the handler
fails at the out-of-scope `request` reference, the boundary answers with
the `-32603` envelope, and the stored session still has 0 steps (the
claim expects 1, with id `step_1`). -/
theorem sequentialThinking_append_failing_eval :
    (handlePost (handleThinkingRequest 0 "2025-01-01T00:00:00.000Z")
        (.ok { jsonrpc := some "2.0", method := "tools/call",
               params := { name := "sequential_thinking",
                           arguments := { query := "q", session_id := some "s" } },
               id := .num 1 })
        ([("thinking:default:s",
            { id := "s", created := "t0", steps := [], updated := none })] : ThinkStore))
      = (⟨500, .rpcError (-32603) "Internal error" (some "request is not defined") .null⟩,
         [("thinking:default:s", { id := "s", created := "t0", steps := [], updated := none })])
    ∧ ((kvGet ([("thinking:default:s",
            { id := "s", created := "t0", steps := [], updated := none })] : ThinkStore)
          "thinking:default:s").map (fun s => s.steps.length) = some 0) :=
  ⟨rfl, rfl⟩

/-- C6 failing input: a `create_entities` call with one descriptor named
`a` against an empty store leaves the store empty and is answered with the
`-32603` envelope — the handler fails at the out-of-scope `request`
reference before touching the graph (the claim expects a stored graph with
the single key `a`). -/
theorem createEntities_failing_eval :
    handlePost handleMemoryRequest
      (.ok { jsonrpc := some "2.0", method := "tools/call",
             params := { name := "create_entities",
                         arguments := { entities :=
                           [{ name := "a", entityType := "t", observations := none }] } },
             id := .num 1 })
      ([] : MemStore)
      = (⟨500, .rpcError (-32603) "Internal error" (some "request is not defined") .null⟩,
         ([] : MemStore)) := rfl

/-- The `create_entities` update that the spec describes (and that the
defective handler never reaches): against an empty graph, distinctly
named descriptors produce exactly one key per descriptor, in input order,
hence exactly `N` keys for `N` descriptors. -/
theorem createEntities_distinct_names_keys (es : List EntityInput)
    (hnd : (es.map EntityInput.name).Nodup) :
    objKeys (createEntitiesUpdate es { entities := [], relations := [] }).entities
        = es.map EntityInput.name
    ∧ (objKeys (createEntitiesUpdate es { entities := [], relations := [] }).entities).length
        = es.length := by
  have h : objKeys (entitiesFold ([] : List (String × Entity)) es) = es.map EntityInput.name := by
    have := objKeys_entitiesFold_of_disjoint es [] (fun i _ hi => by simp at hi) hnd
    simpa using this
  exact ⟨h, by rw [createEntitiesUpdate] at *; simp [h]⟩

/-- Witness for the intended `create_entities` key behaviour at two
distinctly named descriptors. -/
theorem createEntities_distinct_names_keys_witness :
    objKeys (createEntitiesUpdate
        [{ name := "a", entityType := "t", observations := none },
         { name := "b", entityType := "u", observations := some ["o"] }]
        { entities := [], relations := [] }).entities = ["a", "b"] :=
  (createEntities_distinct_names_keys
    [{ name := "a", entityType := "t", observations := none },
     { name := "b", entityType := "u", observations := some ["o"] }] (by decide)).1

/-- C7: a `send_message` call whose upstream response is non-2xx (with a
configured token) is answered as an RPC-level success (`200`, `result`)
whose tool payload has `is_error=true` and a text that contains the
upstream status code between two context strings — the thrown
`Discord API error` is converted to a soft error, not propagated. -/
theorem sendMessage_soft_error (env : DiscordEnv) (up : UpstreamResponse)
    (args : DiscordArgs) (i : RpcId)
    (htok : env.DISCORD_TOKEN.getD "" ≠ "")
    (hstatus : ¬ (200 ≤ up.status ∧ up.status ≤ 299)) :
    (handlePost (handleMCPRequest env up)
        (.ok { jsonrpc := some "2.0", method := "tools/call",
               params := { name := "send_message", arguments := args }, id := i }) ())
      = (⟨200, .result (.toolCall
          { content := [.raw ("Error sending message: "
              ++ ("Discord API error: " ++ toString up.status
                  ++ (" " ++ up.statusText ++ " - " ++ up.bodyText)))],
            isError := true }) i⟩, ())
    ∧ ∃ pre post,
        ("Error sending message: "
          ++ ("Discord API error: " ++ toString up.status
              ++ (" " ++ up.statusText ++ " - " ++ up.bodyText)))
          = pre ++ toString up.status ++ post := by
  constructor
  · simp [handlePost, handleMCPRequest, handleToolCall, sendMessage, makeDiscordRequest,
      htok, hstatus]
  · refine ⟨"Error sending message: " ++ "Discord API error: ",
      " " ++ up.statusText ++ " - " ++ up.bodyText, ?_⟩
    rw [stringAppend_assoc "Error sending message: " "Discord API error: "]
    rw [← stringAppend_assoc]

/-- C7 witness: upstream status 404 yields the soft error with `404` in
the text. -/
theorem sendMessage_soft_error_witness :
    (handlePost (handleMCPRequest ⟨some "tok"⟩ ⟨404, "Not Found", "missing", []⟩)
        (.ok { jsonrpc := some "2.0", method := "tools/call",
               params := { name := "send_message",
                           arguments := { channel_id := "c1", message := "hi", guild_id := "" } },
               id := .num 3 }) ())
      = (⟨200, .result (.toolCall
          { content := [.raw ("Error sending message: "
              ++ ("Discord API error: " ++ toString (404 : Nat)
                  ++ (" " ++ "Not Found" ++ " - " ++ "missing")))],
            isError := true }) (.num 3)⟩, ())
    ∧ ∃ pre post,
        ("Error sending message: "
          ++ ("Discord API error: " ++ toString (404 : Nat)
              ++ (" " ++ "Not Found" ++ " - " ++ "missing")))
          = pre ++ toString (404 : Nat) ++ post :=
  sendMessage_soft_error ⟨some "tok"⟩ ⟨404, "Not Found", "missing", []⟩
    { channel_id := "c1", message := "hi", guild_id := "" } (.num 3)
    (by decide) (by decide)

/-- C10: the `create_entities` store update (index.js lines 258-268) keys
the entity map by entity name with last-write-wins overwrite: every key
named by some input reads back as the entity built from the last input
naming it; against the empty graph the key list is distinct and holds
exactly the distinct input names; and running the update twice with the
same descriptors leaves the graph equal to the result of a single run
(idempotence), for any stored graph with distinct keys. -/
theorem createEntities_lastWriteWins_idempotent (es : List EntityInput) (g : Graph)
    (hnd : (objKeys g.entities).Nodup) :
    (∀ k, lookupEntity (createEntitiesUpdate es g).entities k
        = match lastValIn es k with
          | some v => some v
          | none => lookupEntity g.entities k)
    ∧ (objKeys (createEntitiesUpdate es { entities := [], relations := [] }).entities).Nodup
    ∧ (∀ k, k ∈ objKeys (createEntitiesUpdate es { entities := [], relations := [] }).entities
        ↔ k ∈ es.map EntityInput.name)
    ∧ createEntitiesUpdate es (createEntitiesUpdate es g) = createEntitiesUpdate es g := by
  refine ⟨?_, ?_, ?_, ?_⟩
  · intro k
    exact lookupEntity_entitiesFold es g.entities k
  · exact nodup_objKeys_entitiesFold es [] (by simp)
  · intro k
    simpa using mem_objKeys_entitiesFold es [] k
  · show ({ createEntitiesUpdate es g with
        entities := entitiesFold (createEntitiesUpdate es g).entities es } : Graph)
      = createEntitiesUpdate es g
    rw [createEntitiesUpdate]
    simp only []
    rw [entitiesFold_idem es g.entities hnd]

/-- C10 witness: duplicate names collapse to one entry with the last
value, and applying the update twice equals applying it once. -/
theorem createEntities_lastWriteWins_idempotent_witness :
    createEntitiesUpdate
        [{ name := "a", entityType := "t1", observations := none },
         { name := "a", entityType := "t2", observations := some ["o"] },
         { name := "b", entityType := "t3", observations := none }]
        (createEntitiesUpdate
          [{ name := "a", entityType := "t1", observations := none },
           { name := "a", entityType := "t2", observations := some ["o"] },
           { name := "b", entityType := "t3", observations := none }]
          { entities := [], relations := [] })
      = createEntitiesUpdate
          [{ name := "a", entityType := "t1", observations := none },
           { name := "a", entityType := "t2", observations := some ["o"] },
           { name := "b", entityType := "t3", observations := none }]
          { entities := [], relations := [] } :=
  (createEntities_lastWriteWins_idempotent
    [{ name := "a", entityType := "t1", observations := none },
     { name := "a", entityType := "t2", observations := some ["o"] },
     { name := "b", entityType := "t3", observations := none }]
    { entities := [], relations := [] } (by decide)).2.2.2
